import Mathlib

/-!
Verification of the ai-chat-stack client session logic.

The definitions below are a shallow embedding of the session-state logic in
`src/App.tsx` and of the repository form logic in
`src/components/ConfigurationScreen.tsx`.  React `useState` setters are
modelled as a single state record updated by pure functions; each command
handler returns the next state together with the list of messages it sends
over the websocket; the `useEffect` message switch becomes a step function
from a server message to the next state.
-/

namespace AiChatStack

/-- Truthiness of a JS `string | null` value: `null` and the empty string are
falsy, every other string is truthy. -/
def strTruthy : Option String → Bool
  | none => false
  | some s => decide (s ≠ "")

/-- JS `a || b` on strings: the empty string falls through to `b`. -/
def jsOrElse (a b : String) : String := if a = "" then b else a

/-- Modelled from the spec: the recursive `FileNode` type (`src/types.ts` is
not present under `src/`); the spec gives path, a file/directory kind, and
children for directories only. The claims treat trees opaquely. -/
inductive FileNode where
  | file (path : String)
  | directory (path : String) (children : List FileNode)

/-- Sender of a chat message, per the literals in `App.tsx`. -/
inductive Sender where
  | user
  | agent
deriving DecidableEq

/-- Chat message shape, per the object literal in `handleSendChatMessage`. -/
structure ChatMessage where
  id : String
  sender : Sender
  text : String
  timestamp : Nat
deriving DecidableEq

/-- Server-confirmed repository record, per the field accesses in
`ConfigurationScreen.tsx` (no token is returned by the server). -/
structure RepositoryResponse where
  id : String
  name : String
  url : String
  host : String
  owner : String
  repo : String
  branch : String
deriving DecidableEq

/-- Client-side repository payload, per the object literal in
`handleRepoSubmit`. -/
structure Repository where
  name : String
  url : String
  host : String
  owner : String
  repo : String
  branch : String
  token : String
deriving DecidableEq

/-- Configuration payload, per the object literal in `handleConfigSubmit`. -/
structure ConfigData where
  geminiToken : String
  repositories : List Repository
deriving DecidableEq

/-- Outgoing commands (`ClientToServerMessage` in the source). -/
inductive ClientToServerMessage where
  | submitConfig (payload : ConfigData)
  | fetchFiles (repositoryId : String)
  | sendChatMessage (text : String)
  | addRepository (repository : Repository)
  | updateRepository (repositoryId : String) (repository : Repository)
  | deleteRepository (repositoryId : String)
  | selectRepository (repositoryId : String)
deriving DecidableEq

/-- Incoming events (`ServerToClientMessage` in the source). -/
inductive ServerToClientMessage where
  | configSuccess
  | configError (message : String)
  | fileTreeData (tree : List FileNode) (repository : Option RepositoryResponse)
  | fileTreeError (message : String)
  | newChatMessage (payload : ChatMessage)
  | agentTyping (isTyping : Bool)
  | repositoriesList (repositories : List RepositoryResponse)
  | repositoryActionSuccess (action : String) (repositoryId : Option String)
      (repository : Option RepositoryResponse)
  | repositoryActionError (message : String)

/-- The `useState` slices of the `App` component gathered into one record. -/
structure AppState where
  isConfigured : Bool
  configData : Option ConfigData
  chatMessages : List ChatMessage
  fileTree : Option (List FileNode)
  isFileTreeLoading : Bool
  fileTreeError : Option String
  systemMessage : Option String
  repositories : List RepositoryResponse
  selectedRepositoryId : Option String
  selectedRepository : Option RepositoryResponse

/-- The initial values of every `useState` call in `App`. -/
def initialAppState : AppState :=
  { isConfigured := false
    configData := none
    chatMessages := []
    fileTree := none
    isFileTreeLoading := false
    fileTreeError := none
    systemMessage := none
    repositories := []
    selectedRepositoryId := none
    selectedRepository := none }

/-- The `useEffect` switch over `lastJsonMessage` in `App.tsx`: one server
message maps the current state to the next state.  The `AGENT_TYPING` case
only logs, and the default case only warns, so both leave the state as is. -/
def handleServerMessage (s : AppState) : ServerToClientMessage → AppState
  | .configSuccess =>
      { s with isConfigured := true
               systemMessage :=
                 some "Configuration successful. You can now chat with the agent." }
  | .configError m =>
      { s with systemMessage := some ("Configuration Error: " ++ m)
               isConfigured := false }
  | .fileTreeData tree repo =>
      { s with fileTree := some tree
               isFileTreeLoading := false
               fileTreeError := none
               selectedRepository := if repo.isSome then repo else s.selectedRepository }
  | .fileTreeError m =>
      { s with fileTreeError := some m
               isFileTreeLoading := false
               fileTree := none }
  | .newChatMessage m =>
      { s with chatMessages := s.chatMessages ++ [m] }
  | .agentTyping _ => s
  | .repositoriesList rs =>
      { s with repositories := rs
               selectedRepositoryId :=
                 match rs with
                 | [] => s.selectedRepositoryId
                 | r :: _ =>
                     if strTruthy s.selectedRepositoryId then s.selectedRepositoryId
                     else some r.id }
  | .repositoryActionSuccess action repoId repo =>
      if action = "select" && strTruthy repoId then
        { s with selectedRepositoryId := repoId }
      else if repo.isSome then
        let verb := if action = "add" then "added" else "updated"
        { s with systemMessage := some ("Repository " ++ verb ++ " successfully") }
      else if action = "delete" then
        { s with systemMessage := some "Repository deleted successfully" }
      else s
  | .repositoryActionError m =>
      { s with systemMessage := some ("Repository action error: " ++ m) }

/-- `handleSendChatMessage` in `App.tsx`: clears a truthy system message,
appends the optimistic user message (id and timestamp come from `Date.now()`,
passed here as `now`), and sends `SEND_CHAT_MESSAGE`. -/
def handleSendChatMessage (s : AppState) (text : String) (now : Nat) :
    AppState × List ClientToServerMessage :=
  ({ s with systemMessage := if strTruthy s.systemMessage then none else s.systemMessage
            chatMessages := s.chatMessages ++
              [{ id := toString now, sender := .user, text := text, timestamp := now }] },
   [.sendChatMessage text])

/-- `handleConfigure` in `App.tsx`. -/
def handleConfigure (s : AppState) (data : ConfigData) :
    AppState × List ClientToServerMessage :=
  ({ s with configData := some data
            systemMessage := some "Submitting configuration..." },
   [.submitConfig data])

/-- `handleFetchFileTree` in `App.tsx`: enter loading, clear the previous
error and tree, send `FETCH_FILES`, and set the advisory status. -/
def handleFetchFileTree (s : AppState) (repositoryId : String) :
    AppState × List ClientToServerMessage :=
  ({ s with isFileTreeLoading := true
            fileTreeError := none
            fileTree := none
            systemMessage := some "Fetching file tree..." },
   [.fetchFiles repositoryId])

/-- `handleAddRepository` in `App.tsx`. -/
def handleAddRepository (s : AppState) (repo : Repository) :
    AppState × List ClientToServerMessage :=
  ({ s with systemMessage := some "Adding repository..." }, [.addRepository repo])

/-- `handleUpdateRepository` in `App.tsx`. -/
def handleUpdateRepository (s : AppState) (id : String) (repo : Repository) :
    AppState × List ClientToServerMessage :=
  ({ s with systemMessage := some "Updating repository..." },
   [.updateRepository id repo])

/-- `handleDeleteRepository` in `App.tsx`. -/
def handleDeleteRepository (s : AppState) (id : String) :
    AppState × List ClientToServerMessage :=
  ({ s with systemMessage := some "Deleting repository..." },
   [.deleteRepository id])

/-- `handleSelectRepository` in `App.tsx`: send `SELECT_REPOSITORY`, set the
advisory status, and optimistically set the selected id.  Note that it
touches no file-tree slice. -/
def handleSelectRepository (s : AppState) (id : String) :
    AppState × List ClientToServerMessage :=
  ({ s with systemMessage := some "Selecting repository..."
            selectedRepositoryId := some id },
   [.selectRepository id])

/-- The `onResetConfiguration` callback passed to `ChatInterface` in
`App.tsx`: exactly the seven setter calls of the source, nothing more. -/
def onResetConfiguration (s : AppState) : AppState :=
  { s with isConfigured := false
           configData := none
           chatMessages := []
           fileTree := none
           selectedRepository := none
           selectedRepositoryId := none
           systemMessage := some "Configuration reset. Please re-configure." }

/-- A browser close event as seen by the reconnect predicate. -/
structure CloseEvent where
  code : Nat
  wasClean : Bool
deriving DecidableEq

/-- The shape of the options object handed to `useWebSocket`. -/
structure WebSocketOptions where
  shouldReconnect : CloseEvent → Bool
  reconnectAttempts : Nat
  reconnectInterval : Nat

/-- The options literal in `App.tsx`: the predicate ignores its close event
and always answers true; ceiling 10; interval 3000 ms. -/
def appWebSocketOptions : WebSocketOptions :=
  { shouldReconnect := fun _ => true
    reconnectAttempts := 10
    reconnectInterval := 3000 }

/-- The local form state of the repository add/edit form in
`ConfigurationScreen.tsx`. -/
structure RepoFormState where
  repoName : String
  repoUrl : String
  repoHost : String
  repoOwner : String
  repoName2 : String
  repoBranch : String
  repoToken : String
  editingRepoId : Option String
deriving DecidableEq

/-- Outcome of submitting the repository form: either a form error is shown
and nothing is transmitted, or exactly one command is emitted and the form is
reset. -/
inductive RepoSubmitOutcome where
  | rejected (formError : String)
  | emitted (command : ClientToServerMessage)
deriving DecidableEq

/-- `handleRepoSubmit` in `ConfigurationScreen.tsx`: the guard rejects when
any of name, token, owner or repo name is empty, regardless of whether the
form is in edit mode; otherwise it builds the payload and calls
`updateRepository` when `editingRepoId` is truthy, else `addRepository`. -/
def handleRepoSubmit (f : RepoFormState) : RepoSubmitOutcome :=
  if f.repoName = "" ∨ f.repoToken = "" ∨ f.repoOwner = "" ∨ f.repoName2 = "" then
    .rejected "Repository name, token, owner, and name are required."
  else
    let repo : Repository :=
      { name := f.repoName
        url := jsOrElse f.repoUrl
          ("https://" ++ f.repoHost ++ "/" ++ f.repoOwner ++ "/" ++ f.repoName2)
        host := f.repoHost
        owner := f.repoOwner
        repo := f.repoName2
        branch := jsOrElse f.repoBranch "main"
        token := f.repoToken }
    if strTruthy f.editingRepoId then
      .emitted (.updateRepository (f.editingRepoId.getD "") repo)
    else
      .emitted (.addRepository repo)

/-- The `required` attribute of the GitHub-token input in
`ConfigurationScreen.tsx` is the negated truthiness of `editingRepoId`: the
field is optional while editing (placeholder: leave blank to keep the
existing token). -/
def repoTokenInputRequired (editingRepoId : Option String) : Bool :=
  ! strTruthy editingRepoId

/-- A sample server-confirmed repository record used in concrete scenarios. -/
def sampleRepo : RepositoryResponse :=
  { id := "r1"
    name := "Repo One"
    url := "https://github.com/octo/proj"
    host := "github.com"
    owner := "octo"
    repo := "proj"
    branch := "main" }

/-- A sample two-node file tree used in concrete scenarios. -/
def sampleTree : List FileNode :=
  [.file "README.md", .directory "src" [.file "src/main.tsx"]]

/-- A state in which the tree for the selected repository r1 has just loaded. -/
def c1LoadedState : AppState :=
  { initialAppState with
      fileTree := some sampleTree
      selectedRepositoryId := some "r1" }

/-- Claim C1 counterexample: with the tree for r1 just loaded, selecting r2
does not reset the file-tree state to IDLE — the previously loaded tree is
still present after `handleSelectRepository`, contradicting the claim that
the tree is cleared and not inherited by the new selection. -/
theorem c1_counterexample :
    ((handleSelectRepository c1LoadedState "r2").1).selectedRepositoryId = some "r2" ∧
    ((handleSelectRepository c1LoadedState "r2").1).fileTree = some sampleTree ∧
    ((handleSelectRepository c1LoadedState "r2").1).fileTree ≠ none := by
  refine ⟨rfl, rfl, ?_⟩
  show some sampleTree ≠ none
  simp

/-- Claim C1 (amended): issuing selectRepository for another repository id
leaves the whole file-tree slice (tree, loading flag, error) unchanged; it
only records the new selected id, sets the advisory status, and sends the
SELECT_REPOSITORY command. -/
theorem c1_select_leaves_file_tree_slice_unchanged (s : AppState) (id : String) :
    (handleSelectRepository s id).1.fileTree = s.fileTree ∧
    (handleSelectRepository s id).1.isFileTreeLoading = s.isFileTreeLoading ∧
    (handleSelectRepository s id).1.fileTreeError = s.fileTreeError ∧
    (handleSelectRepository s id).1.selectedRepositoryId = some id ∧
    (handleSelectRepository s id).2 = [.selectRepository id] :=
  ⟨rfl, rfl, rfl, rfl, rfl⟩

/-- An update submission (edit mode, existing id r1) with all fields filled
except the token, which is left blank to mean retain the existing token. -/
def c2FailingForm : RepoFormState :=
  { repoName := "My Repo"
    repoUrl := ""
    repoHost := "github.com"
    repoOwner := "octo"
    repoName2 := "proj"
    repoBranch := "main"
    repoToken := ""
    editingRepoId := some "r1" }

/-- Claim C2: an update submission with non-empty name, owner and repo but an
empty token is rejected by the submit guard with a form error, and no
UPDATE_REPOSITORY command is transmitted — even though the token input field
itself is marked not required in edit mode (its placeholder says to leave it
blank to keep the existing token).  The guard contradicts the forms own
field requirements, so the code, not the claim, is at fault. -/
theorem c2_update_with_empty_token_rejected :
    handleRepoSubmit c2FailingForm =
      .rejected "Repository name, token, owner, and name are required." ∧
    repoTokenInputRequired c2FailingForm.editingRepoId = false := by
  exact ⟨by decide, by decide⟩

/-- Claim C3: processing CONFIG_ERROR with message m sets the configured
flag to false and the status text to exactly the prefixed message, and the
resulting state differs from the input state in no other field. -/
theorem c3_config_error_resets_to_unconfigured (s : AppState) (m : String) :
    handleServerMessage s (.configError m) =
      { s with isConfigured := false
               systemMessage := some ("Configuration Error: " ++ m) } := rfl

/-- Claim C4: REPOSITORIES_LIST replaces the registry by exactly the payload
list, for every prior registry; and when no selection exists (falsy id) and
the received list is non-empty, the first received entry becomes selected. -/
theorem c4_repositories_list_full_replace (s : AppState)
    (rs : List RepositoryResponse) :
    (handleServerMessage s (.repositoriesList rs)).repositories = rs ∧
    (strTruthy s.selectedRepositoryId = false →
      ∀ r rest, rs = r :: rest →
        (handleServerMessage s (.repositoriesList rs)).selectedRepositoryId
          = some r.id) := by
  refine ⟨rfl, ?_⟩
  intro h r rest hrs
  subst hrs
  simp [handleServerMessage, h]

/-- Claim C4 witness: from the initial state (no selection), a list holding
the single record r1 fully replaces the registry and r1 becomes selected. -/
theorem c4_repositories_list_full_replace_witness :
    (handleServerMessage initialAppState
        (.repositoriesList [sampleRepo])).repositories = [sampleRepo] ∧
    (handleServerMessage initialAppState
        (.repositoriesList [sampleRepo])).selectedRepositoryId = some "r1" := by
  refine ⟨(c4_repositories_list_full_replace initialAppState [sampleRepo]).1, ?_⟩
  exact (c4_repositories_list_full_replace initialAppState [sampleRepo]).2
    rfl sampleRepo [] rfl

/-- Claim C5: issuing FETCH_FILES immediately clears any previous tree and
error, sets the loading flag, and sends the FETCH_FILES command; this runs
before any FILE_TREE_DATA or FILE_TREE_ERROR event is processed, so no stale
tree survives into the in-flight window. -/
theorem c5_fetch_files_enters_loading_and_clears (s : AppState) (rid : String) :
    (handleFetchFileTree s rid).1.fileTree = none ∧
    (handleFetchFileTree s rid).1.fileTreeError = none ∧
    (handleFetchFileTree s rid).1.isFileTreeLoading = true ∧
    (handleFetchFileTree s rid).2 = [.fetchFiles rid] :=
  ⟨rfl, rfl, rfl, rfl⟩

/-- Claim C6: AGENT_TYPING never changes the state at all; sending one user
message and then processing one NEW_CHAT_MESSAGE yields the base transcript
extended by exactly the optimistic user message followed by the received
message, so the length grows from base to base plus two with the user
message first. -/
theorem c6_chat_send_then_receive_appends_in_order
    (s : AppState) (text : String) (now : Nat) (m : ChatMessage) (b : Bool) :
    handleServerMessage s (.agentTyping b) = s ∧
    (handleServerMessage (handleSendChatMessage s text now).1
        (.newChatMessage m)).chatMessages
      = s.chatMessages ++
          [{ id := toString now, sender := .user, text := text, timestamp := now }, m] ∧
    (handleServerMessage (handleSendChatMessage s text now).1
        (.newChatMessage m)).chatMessages.length
      = s.chatMessages.length + 2 := by
  refine ⟨rfl, ?_, ?_⟩
  · simp [handleServerMessage, handleSendChatMessage]
  · simp [handleServerMessage, handleSendChatMessage]

/-- A state reached mid-session: configured, one chat message, a file-tree
fetch in flight that has also recorded an error, and one registry record. -/
def c7PreResetState : AppState :=
  { initialAppState with
      isConfigured := true
      chatMessages := [{ id := "7", sender := .agent, text := "hi", timestamp := 7 }]
      isFileTreeLoading := true
      fileTreeError := some "boom"
      repositories := [sampleRepo] }

/-- Claim C7 counterexample: a session reset does clear the transcript and
the configured flag and leaves the registry intact, but it does not clear
the whole file-tree state — the loading flag and the recorded file-tree
error survive the reset, contradicting the claim that the file-tree state is
cleared. -/
theorem c7_counterexample :
    (onResetConfiguration c7PreResetState).fileTreeError = some "boom" ∧
    (onResetConfiguration c7PreResetState).isFileTreeLoading = true ∧
    (onResetConfiguration c7PreResetState).chatMessages = [] ∧
    (onResetConfiguration c7PreResetState).isConfigured = false ∧
    (onResetConfiguration c7PreResetState).repositories = [sampleRepo] :=
  ⟨rfl, rfl, rfl, rfl, rfl⟩

/-- Claim C7 (amended): a session reset clears the transcript, the loaded
tree, the configuration data and flag, the selection, and sets the reset
status text, while leaving the repository registry, the file-tree loading
flag and any file-tree error message unchanged. -/
theorem c7_reset_clears_and_frames (s : AppState) :
    onResetConfiguration s =
      { s with isConfigured := false
               configData := none
               chatMessages := []
               fileTree := none
               selectedRepository := none
               selectedRepositoryId := none
               systemMessage := some "Configuration reset. Please re-configure." } ∧
    (onResetConfiguration s).repositories = s.repositories ∧
    (onResetConfiguration s).isFileTreeLoading = s.isFileTreeLoading ∧
    (onResetConfiguration s).fileTreeError = s.fileTreeError :=
  ⟨rfl, rfl, rfl, rfl⟩

/-- Claim C8 counterexample: the reconnect predicate passed to the websocket
hook answers true for a clean close with code 1000 (the close produced by a
manually-initiated disconnect), contradicting the claim that the predicate
is false for manual closes. -/
theorem c8_counterexample :
    appWebSocketOptions.shouldReconnect { code := 1000, wasClean := true } = true :=
  rfl

/-- Claim C8 (amended): the reconnection options fix a ceiling of 10
attempts and a 3000 ms inter-attempt delay, and the reconnect predicate
supplied by the app returns true for every close event, manual closes
included — any suppression of reconnection for manual closes is the
websocket library behaviour, not this predicate. -/
theorem c8_reconnect_policy (e : CloseEvent) :
    appWebSocketOptions.shouldReconnect e = true ∧
    appWebSocketOptions.reconnectAttempts = 10 ∧
    appWebSocketOptions.reconnectInterval = 3000 :=
  ⟨rfl, rfl, rfl⟩

/-- Claim C9 counterexample: two distinct user messages sent within the same
millisecond (both at time 5) receive the same client-generated id, so ids
are not unique within a session. -/
theorem c9_counterexample :
    ((handleSendChatMessage (handleSendChatMessage initialAppState "a" 5).1
        "b" 5).1).chatMessages.map ChatMessage.id = ["5", "5"] ∧
    ((handleSendChatMessage (handleSendChatMessage initialAppState "a" 5).1
        "b" 5).1).chatMessages.map ChatMessage.text = ["a", "b"] := by
  exact ⟨by decide, by decide⟩

/-- Claim C9 (amended): the client generates a user-message id as the string
of the send timestamp and appends unconditionally, with no collision check;
hence any two user messages sent at the same millisecond carry equal ids,
and uniqueness of ids within a session is not guaranteed. -/
theorem c9_same_millisecond_sends_collide
    (s : AppState) (t1 t2 : String) (now : Nat) :
    ((handleSendChatMessage (handleSendChatMessage s t1 now).1
        t2 now).1).chatMessages.map ChatMessage.id
      = s.chatMessages.map ChatMessage.id ++ [toString now, toString now] := by
  simp [handleSendChatMessage]

/-- Claim C10: when a selection already exists (a truthy selected id),
REPOSITORIES_LIST leaves the selection pointer unchanged for every received
list — including lists in which the selected id does not occur — while still
replacing the registry, so the selected id may afterwards refer to a
repository absent from the registry. -/
theorem c10_existing_selection_survives_full_sync
    (s : AppState) (rs : List RepositoryResponse)
    (h : strTruthy s.selectedRepositoryId = true) :
    (handleServerMessage s (.repositoriesList rs)).selectedRepositoryId
      = s.selectedRepositoryId ∧
    (handleServerMessage s (.repositoriesList rs)).repositories = rs := by
  refine ⟨?_, rfl⟩
  cases rs with
  | nil => rfl
  | cons r rest => simp [handleServerMessage, h]

/-- A state whose selected id ghost matches no record in the incoming list. -/
def c10GhostState : AppState :=
  { initialAppState with selectedRepositoryId := some "ghost" }

/-- Claim C10 witness: with ghost selected, a full sync carrying only r1
keeps ghost selected, which is now absent from the registry. -/
theorem c10_existing_selection_survives_full_sync_witness :
    (handleServerMessage c10GhostState
        (.repositoriesList [sampleRepo])).selectedRepositoryId = some "ghost" ∧
    (handleServerMessage c10GhostState
        (.repositoriesList [sampleRepo])).repositories = [sampleRepo] := by
  have h := c10_existing_selection_survives_full_sync c10GhostState [sampleRepo]
    (by decide)
  exact ⟨h.1, h.2⟩

end AiChatStack
